import Mathlib

set_option maxRecDepth 8000
set_option synthInstance.maxHeartbeats 400000

/-!
Shallow embedding of the codecrafters HTTP server (src/app/server.go).

Go strings are modelled as lists of characters (`GoStr`); Go's `len` on a
string is byte length, which agrees with list length on ASCII data.  Go
maps are modelled as association lists with overwrite-on-insert, matching
Go map assignment.  The filesystem and `os.Args` are the external
collaborators of the spec and are modelled as an explicit state value
passed to the file handlers.
-/

/-- Model of a Go string: a sequence of characters. -/
abbrev GoStr := List Char

/-- The CRLF line terminator. -/
def crlfG : GoStr := ("\r\n").data

/-- Model of Go `strings.Split(s, sep)` for a one-character separator,
as used by the source in `strings.Split(path, "/")`. -/
def split1 (a : Char) : List Char → List (List Char)
  | [] => [[]]
  | c :: cs =>
    if c = a then [] :: split1 a cs
    else
      match split1 a cs with
      | g :: gss => (c :: g) :: gss
      | [] => [[c]]

/-- Model of Go `strings.Split(s, sep)` for a two-character separator,
as used by the source in `strings.Split(request, "\r\n")`. -/
def split2 (a b : Char) : List Char → List (List Char)
  | [] => [[]]
  | [c] => [[c]]
  | c :: d :: cs =>
    if c = a ∧ d = b then [] :: split2 a b cs
    else
      match split2 a b (d :: cs) with
      | g :: gss => (c :: g) :: gss
      | [] => [[c]]

/-- Model of Go `strings.SplitN(s, sep, 2)` for a two-character separator,
as used by the header parser with `": "`: it splits at the first
occurrence of the separator only. -/
def splitN2 (a b : Char) : List Char → List (List Char)
  | [] => [[]]
  | [c] => [[c]]
  | c :: d :: cs =>
    if c = a ∧ d = b then [[], cs]
    else
      match splitN2 a b (d :: cs) with
      | g :: gss => (c :: g) :: gss
      | [] => [[c]]

/-- The ASCII white-space characters recognised by Go `unicode.IsSpace`. -/
def isSpaceGo (c : Char) : Bool :=
  decide (c = ' ' ∨ c = '\t' ∨ c = '\n' ∨ c = '\x0b' ∨ c = '\x0c' ∨ c = '\r')

/-- Split on a character predicate; building block for `fieldsGo`. -/
def splitP (p : Char → Bool) : List Char → List (List Char)
  | [] => [[]]
  | c :: cs =>
    if p c then [] :: splitP p cs
    else
      match splitP p cs with
      | g :: gss => (c :: g) :: gss
      | [] => [[c]]

/-- Model of Go `strings.Fields`: the maximal runs of non-space
characters of the input. -/
def fieldsGo (l : List Char) : List (List Char) :=
  (splitP isSpaceGo l).filter (fun f => !f.isEmpty)

/-- Model of Go `strings.ToLower` (restricted to ASCII case folding). -/
def toLowerGo (l : GoStr) : GoStr := l.map Char.toLower

/-- Reading `m[k]` from a Go map modelled as an association list. -/
def mapLookup {β : Type} : List (GoStr × β) → GoStr → Option β
  | [], _ => none
  | (k', v) :: rest, k => if k' = k then some v else mapLookup rest k

/-- Assignment `m[k] = v` on a Go map modelled as an association list:
overwrites the binding when the key is present, appends it otherwise. -/
def mapInsert {β : Type} : List (GoStr × β) → GoStr → β → List (GoStr × β)
  | [], k, v => [(k, v)]
  | (k', v') :: rest, k, v =>
    if k' = k then (k, v) :: rest else (k', v') :: mapInsert rest k v

/-- Model of the Go `Request` struct; the method is consumed by routing
before the struct is built, exactly as in the source. -/
structure Request where
  path : GoStr
  headers : List (GoStr × GoStr)
  body : GoStr
  deriving DecidableEq

/-- Model of the Go `Response` struct. -/
structure Response where
  statusCode : Nat
  reason : GoStr
  contentType : GoStr
  body : GoStr
  deriving DecidableEq

/-- Model of the Go `httpHeader` struct. -/
structure HttpHeader where
  name : GoStr
  value : GoStr
  deriving DecidableEq

/-- Modelled from the spec: the byte-storage collaborator
(`read(name) -> bytes | NotFound`, `write(name, bytes) -> ok | Error`)
together with the `os.Args` configuration value.  `writeFails` is an
oracle saying whether a given write is rejected by the filesystem. -/
structure FileSys where
  files : List (GoStr × GoStr)
  writeFails : GoStr → GoStr → Bool
  args : List GoStr

/-- Modelled from the spec: `os.ReadFile` against the abstract byte
store, producing the data or an error text. -/
def osReadFile (fs : FileSys) (name : GoStr) : Except GoStr GoStr :=
  match mapLookup fs.files name with
  | some data => Except.ok data
  | none => Except.error (("open ").data ++ name ++ (": no such file or directory").data)

/-- Modelled from the spec: `os.WriteFile` against the abstract byte
store; returns the updated store and the write's outcome. -/
def osWriteFile (fs : FileSys) (name data : GoStr) : FileSys × Except GoStr Unit :=
  if fs.writeFails name data then (fs, Except.error (("write error").data))
  else (FileSys.mk (mapInsert fs.files name data) fs.writeFails fs.args, Except.ok ())

/-- Model of `mainPageHandler` in src/app/server.go. -/
def mainPageHandler (_ : Request) : Response :=
  Response.mk 200 ("OK".data) ("text/html".data) ("<h1>Hello World</h1>".data)

/-- Model of `echoHandler` in src/app/server.go. -/
def echoHandler (r : Request) : Response :=
  let pathParts := split1 '/' r.path
  if pathParts.length = 3 then
    Response.mk 200 ("OK".data) ("text/plain".data) (pathParts.getD 2 [])
  else
    Response.mk 404 ("Not Found".data) ("text/plain".data) ("Not Found".data)

/-- Model of `userAgentHandler` in src/app/server.go. -/
def userAgentHandler (r : Request) : Response :=
  match mapLookup r.headers ("user-agent".data) with
  | none =>
    Response.mk 400 ("Not Found".data) ("text/plain".data) ("User-Agent header not found".data)
  | some ua => Response.mk 200 ("OK".data) ("text/plain".data) ua

/-- The root directory exactly as the file handlers compute it from
`os.Args` (`os.Args[2]` when present, empty otherwise). -/
def dirPathOf (fs : FileSys) : GoStr :=
  if fs.args.length < 3 then [] else fs.args.getD 2 []

/-- Model of `filesGetHandler`; the filesystem is passed explicitly. -/
def filesGetHandler (fs : FileSys) (r : Request) : Response × FileSys :=
  let pathParts := split1 '/' r.path
  if pathParts.length = 3 then
    match osReadFile fs (dirPathOf fs ++ pathParts.getD 2 []) with
    | Except.error e => (Response.mk 404 ("Not Found".data) ("text/plain".data) e, fs)
    | Except.ok data =>
      (Response.mk 200 ("OK".data) ("application/octet-stream".data) data, fs)
  else (Response.mk 404 ("Not Found".data) ("text/plain".data) ("Not Found".data), fs)

/-- Model of `filesPostHandler`: performs the write and ignores its
outcome, exactly as the source discards the result of `os.WriteFile`. -/
def filesPostHandler (fs : FileSys) (r : Request) : Response × FileSys :=
  let pathParts := split1 '/' r.path
  if pathParts.length = 3 then
    let wr := osWriteFile fs (dirPathOf fs ++ pathParts.getD 2 []) r.body
    (Response.mk 201 ("Created".data) ("text/plain".data) ("saved".data), wr.1)
  else (Response.mk 404 ("Not Found".data) ("text/plain".data) ("Not Found".data), fs)

/-- A routed handler; pure Go handlers return the filesystem unchanged. -/
def Handler : Type := FileSys → Request → Response × FileSys

/-- Wraps a pure Go handler (`func(*Request) Response`). -/
def pureHandler (f : Request → Response) : Handler := fun fs r => (f r, fs)

/-- Model of `Router.HandleFunc`: `r.routes[method+path] = handler`. -/
def HandleFunc (routes : List (GoStr × Handler)) (method path : GoStr) (h : Handler) :
    List (GoStr × Handler) :=
  mapInsert routes (method ++ path) h

/-- The route table registered in `main`. -/
def mainRouter : List (GoStr × Handler) :=
  HandleFunc
    (HandleFunc
      (HandleFunc
        (HandleFunc
          (HandleFunc [] ("GET".data) ("/".data) (pureHandler mainPageHandler))
          ("GET".data) ("/echo".data) (pureHandler echoHandler))
        ("GET".data) ("/user-agent".data) (pureHandler userAgentHandler))
      ("GET".data) ("/files".data) filesGetHandler)
    ("POST".data) ("/files".data) filesPostHandler

/-- One step of `parseHeaders`: the body of the loop over header lines. -/
def parseHeaderLine (headers : List (GoStr × GoStr)) (line : GoStr) : List (GoStr × GoStr) :=
  if line = [] then headers
  else
    match splitN2 ':' ' ' line with
    | [k, v] => mapInsert headers (toLowerGo k) (toLowerGo v)
    | _ => headers

/-- Model of `parseHeaders` in src/app/server.go. -/
def parseHeaders (headerLines : List GoStr) : List (GoStr × GoStr) :=
  headerLines.foldl parseHeaderLine []

/-- Model of `handleCompression`: appends a `Content-Encoding: gzip`
header exactly when the whole `accept-encoding` value lowercases to
`gzip`; the response body never reaches this function, mirroring the Go
function, which receives only the header slice. -/
def handleCompression (r : Request) (h : List HttpHeader) : List HttpHeader :=
  match mapLookup r.headers ("accept-encoding".data) with
  | none => h
  | some encoding =>
    if toLowerGo encoding = ("gzip".data) then
      h ++ [HttpHeader.mk ("Content-Encoding".data) ("gzip".data)]
    else h

/-- Model of `httpHeader.String()`. -/
def headerString (h : HttpHeader) : GoStr :=
  h.name ++ (": ".data) ++ h.value ++ crlfG

/-- The concatenation of a block of serialized headers, used to state the
wire format produced by `writeResponse`. -/
def headersBlock : List HttpHeader → GoStr
  | [] => []
  | h :: t => headerString h ++ headersBlock t

/-- Model of `writeResponse`: the exact bytes written to the socket. -/
def writeResponse (statusCode : Nat) (statusReason body : GoStr)
    (headers : List HttpHeader) : GoStr :=
  (headers.foldl (fun acc h => acc ++ headerString h)
    (("HTTP/1.1 ".data) ++ (toString statusCode).data ++ (" ".data) ++ statusReason ++ crlfG))
  ++ crlfG ++ body ++ crlfG

/-- The CRLF-separated segments of the raw request buffer. -/
def requestParts (request : GoStr) : List GoStr := split2 '\r' '\n' request

/-- The whitespace-separated fields of the request line.  `requestParts`
is never empty, so `parts[0]` is its head. -/
def lineFieldsOf (request : GoStr) : List GoStr :=
  fieldsGo ((requestParts request).getD 0 [])

/-- The `Request` value built by `ServeHTTP`: path from the request line,
headers parsed from every remaining segment, body taken as the last
segment of the buffer. -/
def requestOf (request : GoStr) : Request :=
  Request.mk ((lineFieldsOf request).getD 1 [])
    (parseHeaders (requestParts request).tail)
    ((requestParts request).getLastD [])

/-- The routing key `method + "/" + pathParts[1]` formed by `ServeHTTP`. -/
def routeKey (request : GoStr) : GoStr :=
  (lineFieldsOf request).getD 0 [] ++ ("/".data)
    ++ (split1 '/' ((lineFieldsOf request).getD 1 [])).getD 1 []

/-- Model of `Router.ServeHTTP` up to (but not including) serialization:
the arguments eventually handed to `writeResponse`, or `none` when the
request is silently dropped. -/
def serveResponseArgs (routes : List (GoStr × Handler)) (fs : FileSys) (request : GoStr) :
    Option (Nat × GoStr × GoStr × List HttpHeader) :=
  if (lineFieldsOf request).length < 2 then none
  else if (split1 '/' ((lineFieldsOf request).getD 1 [])).length < 2 then none
  else
    match mapLookup routes (routeKey request) with
    | none => some (404, ("Not Found".data), [], [])
    | some handler =>
      let res := (handler fs (requestOf request)).1
      some (res.statusCode, res.reason, res.body,
        handleCompression (requestOf request)
          [HttpHeader.mk ("Content-Type".data) res.contentType,
           HttpHeader.mk ("Content-Length".data) ((toString res.body.length).data)])

/-- Model of `Router.ServeHTTP`: the full bytes written to the socket. -/
def ServeHTTP (routes : List (GoStr × Handler)) (fs : FileSys) (request : GoStr) :
    Option GoStr :=
  (serveResponseArgs routes fs request).map
    (fun a => writeResponse a.1 a.2.1 a.2.2.1 a.2.2.2)

/-- Whether the two-character separator `": "` occurs in a string. -/
def containsSep : List Char → Bool
  | [] => false
  | [_] => false
  | c :: d :: cs => if c = ':' ∧ d = ' ' then true else containsSep (d :: cs)

/-- Modelled from the spec: the first magic byte of a standard gzip
stream (0x1f); used only to state that an uncompressed body is not a
gzip stream. -/
def gzipMagic : Char := Char.ofNat 31

/-- Modelled from the spec: the tokenization of `accept-encoding` the
spec describes (tokenize on whitespace after stripping commas). -/
def specEncodingTokens (v : GoStr) : List GoStr :=
  fieldsGo (v.filter (fun c => !(c == ',')))

/-- An empty filesystem with no configured root directory. -/
def fs0 : FileSys := FileSys.mk [] (fun _ _ => false) []

/-! ## Helper lemmas about the embedded operations -/

theorem split1_no_sep (a : Char) (l : GoStr) (h : a ∉ l) : split1 a l = [l] := by
  induction l with
  | nil => rfl
  | cons c cs ih =>
    rw [List.mem_cons] at h
    push_neg at h
    simp only [split1, ih h.2]
    rw [if_neg (Ne.symm h.1)]

theorem split1_append_cons (a : Char) (u w : GoStr) (hu : a ∉ u) :
    split1 a (u ++ a :: w) = u :: split1 a w := by
  induction u with
  | nil => simp [split1]
  | cons c u2 ih =>
    rw [List.mem_cons] at hu
    push_neg at hu
    simp only [List.cons_append, split1, List.append_eq, ih hu.2]
    rw [if_neg (Ne.symm hu.1)]

theorem split_echo (v : GoStr) (hv : '/' ∉ v) :
    split1 '/' (("/echo/").data ++ v) = [[], ("echo").data, v] := by
  have hd : ("/echo/").data ++ v = [] ++ '/' :: (("echo").data ++ '/' :: v) := rfl
  rw [hd, split1_append_cons '/' [] _ (by decide),
      split1_append_cons '/' (("echo").data) v (by decide),
      split1_no_sep '/' v hv]

theorem splitN2_no_sep (l : GoStr) (h : containsSep l = false) : splitN2 ':' ' ' l = [l] := by
  induction l with
  | nil => rfl
  | cons c cs ih =>
    cases cs with
    | nil => rfl
    | cons d cs2 =>
      rw [containsSep] at h
      split at h
      . exact absurd h (by simp)
      . rename_i hcd
        rw [splitN2, if_neg hcd, ih h]

theorem splitN2_first (k v : GoStr) (h : containsSep k = false) :
    splitN2 ':' ' ' (k ++ (": ").data ++ v) = [k, v] := by
  induction k with
  | nil => rfl
  | cons c k2 ih =>
    cases k2 with
    | nil =>
      have hd : [c] ++ (": ").data ++ v = c :: ':' :: (' ' :: v) := rfl
      rw [hd, splitN2]
      have hc : ¬(c = ':' ∧ ':' = ' ') := by
        intro hx
        exact absurd hx.2 (by decide)
      rw [if_neg hc]
      rfl
    | cons d k3 =>
      rw [containsSep] at h
      split at h
      . exact absurd h (by simp)
      . rename_i hcd
        have ih2 := ih h
        rw [List.cons_append, List.cons_append] at ih2
        have hd : (c :: d :: k3) ++ (": ").data ++ v = c :: d :: (k3 ++ (": ").data ++ v) := by
          simp
        rw [hd, splitN2, if_neg hcd]
        rw [List.append_assoc] at ih2 ⊢
        rw [ih2]

theorem mapLookup_insert_self {β : Type} (m : List (GoStr × β)) (k : GoStr) (v : β) :
    mapLookup (mapInsert m k v) k = some v := by
  induction m with
  | nil =>
    show (if k = k then some v else mapLookup [] k) = some v
    rw [if_pos rfl]
  | cons p rest ih =>
    obtain ⟨k2, v2⟩ := p
    show mapLookup (if k2 = k then (k, v) :: rest else (k2, v2) :: mapInsert rest k v) k
      = some v
    by_cases hk : k2 = k
    . rw [if_pos hk]
      show (if k = k then some v else mapLookup rest k) = some v
      rw [if_pos rfl]
    . rw [if_neg hk]
      show (if k2 = k then some v2 else mapLookup (mapInsert rest k v) k) = some v
      rw [if_neg hk, ih]

theorem mapInsert_keys {β : Type} (m : List (GoStr × β)) (k : GoStr) (v : β) :
    (mapInsert m k v).map Prod.fst
      = if k ∈ m.map Prod.fst then m.map Prod.fst else m.map Prod.fst ++ [k] := by
  induction m with
  | nil =>
    rw [List.map_nil, if_neg (List.not_mem_nil k), List.nil_append]
    rfl
  | cons p rest ih =>
    obtain ⟨k2, v2⟩ := p
    show (if k2 = k then (k, v) :: rest else (k2, v2) :: mapInsert rest k v).map Prod.fst = _
    by_cases hk : k2 = k
    . subst hk
      rw [if_pos rfl, if_pos (by rw [List.map_cons]; exact List.mem_cons_self _ _)]
      rw [List.map_cons, List.map_cons]
    . rw [if_neg hk, List.map_cons, List.map_cons, ih]
      by_cases hmem : k ∈ rest.map Prod.fst
      . rw [if_pos hmem, if_pos]
        rw [List.mem_cons]
        exact Or.inr hmem
      . rw [if_neg hmem, if_neg, List.cons_append]
        rw [List.mem_cons]
        push_neg
        exact ⟨Ne.symm hk, hmem⟩

theorem mapInsert_keys_nodup {β : Type} (m : List (GoStr × β)) (k : GoStr) (v : β)
    (h : (m.map Prod.fst).Nodup) : ((mapInsert m k v).map Prod.fst).Nodup := by
  rw [mapInsert_keys]
  by_cases hmem : k ∈ m.map Prod.fst
  . simpa [hmem] using h
  . simp only [if_neg hmem]
    rw [List.nodup_append]
    exact ⟨h, List.nodup_singleton k, by simpa using hmem⟩

theorem parseHeaderLine_blank (m : List (GoStr × GoStr)) : parseHeaderLine m [] = m := by
  rw [parseHeaderLine, if_pos rfl]

theorem parseHeaderLine_noSep (m : List (GoStr × GoStr)) (line : GoStr)
    (h : containsSep line = false) : parseHeaderLine m line = m := by
  by_cases hb : line = []
  . rw [parseHeaderLine, if_pos hb]
  . rw [parseHeaderLine, if_neg hb, splitN2_no_sep line h]

theorem parseHeaderLine_sep (m : List (GoStr × GoStr)) (k v : GoStr)
    (h : containsSep k = false) :
    parseHeaderLine m (k ++ (": ").data ++ v) = mapInsert m (toLowerGo k) (toLowerGo v) := by
  have hne : ¬(k ++ (": ").data ++ v = []) := by simp
  rw [parseHeaderLine, if_neg hne, splitN2_first k v h]

theorem parseHeaders_append (lines : List GoStr) (line : GoStr) :
    parseHeaders (lines ++ [line]) = parseHeaderLine (parseHeaders lines) line := by
  rw [parseHeaders, parseHeaders, List.foldl_append]
  rfl

theorem parseHeaderLine_keys_nodup (m : List (GoStr × GoStr)) (line : GoStr)
    (h : (m.map Prod.fst).Nodup) : ((parseHeaderLine m line).map Prod.fst).Nodup := by
  rw [parseHeaderLine]
  split
  . exact h
  . split
    . exact mapInsert_keys_nodup _ _ _ h
    . exact h

theorem parseHeaders_keys_nodup (lines : List GoStr) :
    ((parseHeaders lines).map Prod.fst).Nodup := by
  have hgen : ∀ (ls : List GoStr) (m : List (GoStr × GoStr)), (m.map Prod.fst).Nodup →
      ((ls.foldl parseHeaderLine m).map Prod.fst).Nodup := by
    intro ls
    induction ls with
    | nil => intro m hm; exact hm
    | cons l ls2 ih =>
      intro m hm
      exact ih _ (parseHeaderLine_keys_nodup m l hm)
  exact hgen lines [] (by simp)

theorem handleCompression_cases (r : Request) (h : List HttpHeader) :
    handleCompression r h = h ∨
      handleCompression r h = h ++ [HttpHeader.mk ("Content-Encoding".data) ("gzip".data)] := by
  rw [handleCompression]
  cases hm : mapLookup r.headers ("accept-encoding".data) with
  | none => exact Or.inl rfl
  | some enc =>
    by_cases he : toLowerGo enc = ("gzip".data)
    . exact Or.inr (if_pos he)
    . exact Or.inl (if_neg he)

theorem handleCompression_mem (r : Request) (h : List HttpHeader) (x : HttpHeader)
    (hx : x ∈ h) : x ∈ handleCompression r h := by
  rcases handleCompression_cases r h with hc | hc
  . rw [hc]; exact hx
  . rw [hc]; exact List.mem_append_left _ hx

theorem foldl_headerString (hs : List HttpHeader) (init : GoStr) :
    hs.foldl (fun acc h => acc ++ headerString h) init = init ++ headersBlock hs := by
  induction hs generalizing init with
  | nil => simp [headersBlock]
  | cons h t ih =>
    rw [List.foldl_cons, ih, headersBlock, List.append_assoc]

theorem writeResponse_flat (sc : Nat) (rs b : GoStr) (hs : List HttpHeader) :
    writeResponse sc rs b hs
      = ("HTTP/1.1 ".data) ++ (toString sc).data ++ (" ".data) ++ rs ++ crlfG
        ++ headersBlock hs ++ crlfG ++ b ++ crlfG := by
  rw [writeResponse, foldl_headerString]

theorem serveResponseArgs_some (routes : List (GoStr × Handler)) (fs : FileSys)
    (request : GoStr) (sc : Nat) (rs b : GoStr) (hs : List HttpHeader)
    (h : serveResponseArgs routes fs request = some (sc, rs, b, hs)) :
    (sc = 404 ∧ rs = ("Not Found".data) ∧ b = [] ∧ hs = []) ∨
      (∃ handler, mapLookup routes (routeKey request) = some handler ∧
        sc = ((handler fs (requestOf request)).1).statusCode ∧
        rs = ((handler fs (requestOf request)).1).reason ∧
        b = ((handler fs (requestOf request)).1).body ∧
        hs = handleCompression (requestOf request)
          [HttpHeader.mk ("Content-Type".data) ((handler fs (requestOf request)).1).contentType,
           HttpHeader.mk ("Content-Length".data)
             ((toString ((handler fs (requestOf request)).1).body.length).data)]) := by
  rw [serveResponseArgs] at h
  split at h
  . exact absurd h (by simp)
  . split at h
    . exact absurd h (by simp)
    . split at h
      . left
        simp only [Option.some_inj, Prod.mk.injEq] at h
        exact ⟨h.1.symm, h.2.1.symm, h.2.2.1.symm, h.2.2.2.symm⟩
      . rename_i handler hsome
        right
        refine ⟨handler, hsome, ?_⟩
        simp only [Option.some_inj, Prod.mk.injEq] at h
        exact ⟨h.1.symm, h.2.1.symm, h.2.2.1.symm, h.2.2.2.symm⟩

theorem handleCompression_lookup (r : Request) (h : List HttpHeader) (e : GoStr)
    (hm : mapLookup r.headers ("accept-encoding".data) = some e) :
    handleCompression r h
      = if toLowerGo e = ("gzip".data) then
          h ++ [HttpHeader.mk ("Content-Encoding".data) ("gzip".data)]
        else h := by
  rw [handleCompression, hm]

theorem handleCompression_none (r : Request) (h : List HttpHeader)
    (hm : mapLookup r.headers ("accept-encoding".data) = none) :
    handleCompression r h = h := by
  rw [handleCompression, hm]

/-! ## Claim theorems -/

/-- Claim C4: for every request routed to the echo handler, a path that
splits on `/` into exactly 3 segments (shape `/echo/<value>` with
`<value>` containing no `/`) yields status 200, `text/plain`, body equal
to the third segment (including the empty value); any other segment
count yields 404 with body `Not Found`. -/
theorem claim_C4_theorem :
    (∀ r : Request, echoHandler r
        = if (split1 '/' r.path).length = 3 then
            Response.mk 200 ("OK".data) ("text/plain".data) ((split1 '/' r.path).getD 2 [])
          else Response.mk 404 ("Not Found".data) ("text/plain".data) ("Not Found".data))
    ∧ (∀ (v : GoStr) (m : List (GoStr × GoStr)) (b : GoStr), '/' ∉ v →
        echoHandler (Request.mk (("/echo/").data ++ v) m b)
          = Response.mk 200 ("OK".data) ("text/plain".data) v) := by
  constructor
  . intro r
    rfl
  . intro v m b hv
    show (if (split1 '/' (("/echo/").data ++ v)).length = 3 then
        Response.mk 200 ("OK".data) ("text/plain".data)
          ((split1 '/' (("/echo/").data ++ v)).getD 2 [])
      else Response.mk 404 ("Not Found".data) ("text/plain".data) ("Not Found".data)) = _
    rw [split_echo v hv]
    rfl

/-- Concrete witness for claim C4. -/
theorem claim_C4_witness :
    ('/' ∉ ("abc").data)
    ∧ echoHandler (Request.mk (("/echo/").data ++ ("abc").data) [] [])
        = Response.mk 200 ("OK".data) ("text/plain".data) (("abc").data) :=
  ⟨by decide, claim_C4_theorem.2 (("abc").data) [] [] (by decide)⟩

/-- Claim C5: the user-agent handler returns 400 exactly when the parsed
headers contain no `user-agent` key (and then with an explanatory
plain-text body); when a `User-Agent` line is present, it returns 200
with the value as lowercased by the parser. -/
theorem claim_C5_theorem (p b : GoStr) :
    (∀ m : List (GoStr × GoStr),
        ((userAgentHandler (Request.mk p m b)).statusCode = 400
          ↔ mapLookup m ("user-agent".data) = none)
      ∧ (mapLookup m ("user-agent".data) = none →
          userAgentHandler (Request.mk p m b)
            = Response.mk 400 ("Not Found".data) ("text/plain".data)
                ("User-Agent header not found".data)))
    ∧ (∀ (lines : List GoStr) (k v : GoStr), containsSep k = false →
        toLowerGo k = ("user-agent".data) →
        userAgentHandler
            (Request.mk p (parseHeaders (lines ++ [k ++ (": ").data ++ v])) b)
          = Response.mk 200 ("OK".data) ("text/plain".data) (toLowerGo v)) := by
  constructor
  . intro m
    cases hm : mapLookup m ("user-agent".data) with
    | none =>
      have hh : userAgentHandler (Request.mk p m b)
          = Response.mk 400 ("Not Found".data) ("text/plain".data)
              ("User-Agent header not found".data) := by
        show (match mapLookup m ("user-agent".data) with
          | none => Response.mk 400 ("Not Found".data) ("text/plain".data)
              ("User-Agent header not found".data)
          | some ua => Response.mk 200 ("OK".data) ("text/plain".data) ua) = _
        rw [hm]
      rw [hh]
      exact ⟨by simp, fun _ => rfl⟩
    | some ua =>
      have hh : userAgentHandler (Request.mk p m b)
          = Response.mk 200 ("OK".data) ("text/plain".data) ua := by
        show (match mapLookup m ("user-agent".data) with
          | none => Response.mk 400 ("Not Found".data) ("text/plain".data)
              ("User-Agent header not found".data)
          | some ua2 => Response.mk 200 ("OK".data) ("text/plain".data) ua2) = _
        rw [hm]
      rw [hh]
      constructor
      . constructor
        . intro hx
          simp at hx
        . intro hx
          exact absurd hx (by simp)
      . intro hx
        exact absurd hx (by simp)
  . intro lines k v hk hkl
    have hp : parseHeaders (lines ++ [k ++ (": ").data ++ v])
        = mapInsert (parseHeaders lines) (toLowerGo k) (toLowerGo v) := by
      rw [parseHeaders_append, parseHeaderLine_sep _ _ _ hk]
    rw [hp]
    have hlk : mapLookup (mapInsert (parseHeaders lines) (toLowerGo k) (toLowerGo v))
        ("user-agent".data) = some (toLowerGo v) := by
      rw [← hkl]
      exact mapLookup_insert_self _ _ _
    show (match mapLookup (mapInsert (parseHeaders lines) (toLowerGo k) (toLowerGo v))
        ("user-agent".data) with
      | none => Response.mk 400 ("Not Found".data) ("text/plain".data)
          ("User-Agent header not found".data)
      | some ua => Response.mk 200 ("OK".data) ("text/plain".data) ua) = _
    rw [hlk]

/-- Concrete witness for claim C5. -/
theorem claim_C5_witness :
    (containsSep (("User-Agent").data) = false)
    ∧ (toLowerGo (("User-Agent").data) = ("user-agent".data))
    ∧ userAgentHandler
        (Request.mk (("/user-agent").data)
          (parseHeaders ([] ++ [("User-Agent").data ++ (": ").data ++ ("TeSt").data])) [])
      = Response.mk 200 ("OK".data) ("text/plain".data) (toLowerGo (("TeSt").data)) :=
  ⟨by decide, by decide,
    (claim_C5_theorem (("/user-agent").data) []).2 [] (("User-Agent").data)
      (("TeSt").data) (by decide) (by decide)⟩

/-- Claim C7: the header parser skips blank lines, drops lines without
the separator `": "`, splits each remaining line at the first occurrence
of `": "`, lowercases key and value, lets a later line with the same
lowercased key overwrite the earlier binding, and produces a mapping
with at most one value per key. -/
theorem claim_C7_theorem :
    (∀ m : List (GoStr × GoStr), parseHeaderLine m [] = m)
    ∧ (∀ (m : List (GoStr × GoStr)) (line : GoStr), containsSep line = false →
        parseHeaderLine m line = m)
    ∧ (∀ (m : List (GoStr × GoStr)) (k v : GoStr), containsSep k = false →
        parseHeaderLine m (k ++ (": ").data ++ v) = mapInsert m (toLowerGo k) (toLowerGo v))
    ∧ (∀ (lines : List GoStr) (line : GoStr),
        parseHeaders (lines ++ [line]) = parseHeaderLine (parseHeaders lines) line)
    ∧ (∀ (m : List (GoStr × GoStr)) (k v : GoStr),
        mapLookup (mapInsert m k v) k = some v)
    ∧ (∀ lines : List GoStr, ((parseHeaders lines).map Prod.fst).Nodup) :=
  ⟨parseHeaderLine_blank, parseHeaderLine_noSep, parseHeaderLine_sep,
    parseHeaders_append, fun m k v => mapLookup_insert_self m k v,
    parseHeaders_keys_nodup⟩

/-- Concrete witness for claim C7. -/
theorem claim_C7_witness :
    (containsSep (("Host").data) = false)
    ∧ parseHeaderLine [] (("Host").data ++ (": ").data ++ ("X").data)
        = mapInsert [] (toLowerGo (("Host").data)) (toLowerGo (("X").data)) :=
  ⟨by decide, claim_C7_theorem.2.2.1 [] (("Host").data) (("X").data) (by decide)⟩

/-- Claim C6: every decoded request whose routing key matches no
registered route gets the fixed 404 response with empty body and no
content headers, whatever its method and headers are. -/
theorem claim_C6_theorem (fs : FileSys) (request : GoStr)
    (h1 : ¬(lineFieldsOf request).length < 2)
    (h2 : ¬(split1 '/' ((lineFieldsOf request).getD 1 [])).length < 2)
    (h3 : mapLookup mainRouter (routeKey request) = none) :
    serveResponseArgs mainRouter fs request = some (404, ("Not Found".data), [], [])
    ∧ ServeHTTP mainRouter fs request
        = some (("HTTP/1.1 404 Not Found\r\n\r\n\r\n").data) := by
  have hargs : serveResponseArgs mainRouter fs request
      = some (404, ("Not Found".data), [], []) := by
    rw [serveResponseArgs, if_neg h1, if_neg h2, h3]
  refine ⟨hargs, ?_⟩
  rw [ServeHTTP, hargs, Option.map_some']
  decide

/-- Concrete witness for claim C6. -/
theorem claim_C6_witness :
    (¬(lineFieldsOf (("GET /nonexistent HTTP/1.1\r\n\r\n").data)).length < 2)
    ∧ (¬(split1 '/'
          ((lineFieldsOf (("GET /nonexistent HTTP/1.1\r\n\r\n").data)).getD 1 [])).length < 2)
    ∧ (mapLookup mainRouter (routeKey (("GET /nonexistent HTTP/1.1\r\n\r\n").data)) = none)
    ∧ (serveResponseArgs mainRouter fs0 (("GET /nonexistent HTTP/1.1\r\n\r\n").data)
          = some (404, ("Not Found".data), [], [])
        ∧ ServeHTTP mainRouter fs0 (("GET /nonexistent HTTP/1.1\r\n\r\n").data)
          = some (("HTTP/1.1 404 Not Found\r\n\r\n\r\n").data)) :=
  ⟨by decide, by decide, by rfl,
    claim_C6_theorem fs0 (("GET /nonexistent HTTP/1.1\r\n\r\n").data)
      (by decide) (by decide) (by rfl)⟩

/-- Claim C3: whenever a dispatched response is emitted, the bytes on
the wire are the status line, the header block, a blank line, the body
and a trailing CRLF, and every `Content-Length` header among the emitted
headers equals the exact length of that emitted body, also after
content-encoding negotiation. -/
theorem claim_C3_theorem (fs : FileSys) (request : GoStr) (sc : Nat) (rs b : GoStr)
    (hs : List HttpHeader)
    (h : serveResponseArgs mainRouter fs request = some (sc, rs, b, hs)) :
    ServeHTTP mainRouter fs request
      = some (("HTTP/1.1 ".data) ++ (toString sc).data ++ (" ".data) ++ rs ++ crlfG
          ++ headersBlock hs ++ crlfG ++ b ++ crlfG)
    ∧ ∀ v, HttpHeader.mk ("Content-Length".data) v ∈ hs → v = (toString b.length).data := by
  constructor
  . rw [ServeHTTP, h, Option.map_some']
    rw [writeResponse_flat]
  . intro v hv
    rcases serveResponseArgs_some mainRouter fs request sc rs b hs h with
      ⟨hsc, hrs, hb, hhs⟩ | ⟨handler, hlook, hsc, hrs, hb, hhs⟩
    . rw [hhs] at hv
      exact absurd hv (List.not_mem_nil _)
    . rw [hhs] at hv
      rcases handleCompression_cases (requestOf request)
        [HttpHeader.mk ("Content-Type".data)
            ((handler fs (requestOf request)).1).contentType,
         HttpHeader.mk ("Content-Length".data)
            ((toString ((handler fs (requestOf request)).1).body.length).data)] with hc | hc
      . rw [hc] at hv
        rcases List.mem_cons.mp hv with hv2 | hv2
        . rw [HttpHeader.mk.injEq] at hv2
          exact absurd hv2.1 (by decide)
        . rcases List.mem_cons.mp hv2 with hv3 | hv3
          . rw [HttpHeader.mk.injEq] at hv3
            rw [hb]
            exact hv3.2
          . exact absurd hv3 (List.not_mem_nil _)
      . rw [hc] at hv
        rcases List.mem_append.mp hv with hv2 | hv2
        . rcases List.mem_cons.mp hv2 with hv3 | hv3
          . rw [HttpHeader.mk.injEq] at hv3
            exact absurd hv3.1 (by decide)
          . rcases List.mem_cons.mp hv3 with hv4 | hv4
            . rw [HttpHeader.mk.injEq] at hv4
              rw [hb]
              exact hv4.2
            . exact absurd hv4 (List.not_mem_nil _)
        . rcases List.mem_cons.mp hv2 with hv3 | hv3
          . rw [HttpHeader.mk.injEq] at hv3
            exact absurd hv3.1 (by decide)
          . exact absurd hv3 (List.not_mem_nil _)

/-- Concrete witness for claim C3. -/
theorem claim_C3_witness :
    (serveResponseArgs mainRouter fs0 (("GET /echo/abc HTTP/1.1\r\n\r\n").data)
        = some (200, ("OK").data, ("abc").data,
            [HttpHeader.mk ("Content-Type".data) ("text/plain".data),
             HttpHeader.mk ("Content-Length".data) (("3").data)]))
    ∧ (ServeHTTP mainRouter fs0 (("GET /echo/abc HTTP/1.1\r\n\r\n").data)
        = some (("HTTP/1.1 ".data) ++ (toString 200).data ++ (" ".data) ++ ("OK").data
            ++ crlfG
            ++ headersBlock
                [HttpHeader.mk ("Content-Type".data) ("text/plain".data),
                 HttpHeader.mk ("Content-Length".data) (("3").data)]
            ++ crlfG ++ ("abc").data ++ crlfG)
      ∧ ∀ v, HttpHeader.mk ("Content-Length".data) v ∈
            [HttpHeader.mk ("Content-Type".data) ("text/plain".data),
             HttpHeader.mk ("Content-Length".data) (("3").data)] →
          v = (toString (("abc").data).length).data) :=
  ⟨by decide,
    claim_C3_theorem fs0 (("GET /echo/abc HTTP/1.1\r\n\r\n").data) 200 (("OK").data)
      (("abc").data)
      [HttpHeader.mk ("Content-Type".data) ("text/plain".data),
       HttpHeader.mk ("Content-Length".data) (("3").data)] (by decide)⟩

/-- Claim C8: the encoder emits exactly the status line, each header in
insertion order, a blank line, the body, and a trailing CRLF; in
particular `GET /echo/abc` with a `Host` header produces the expected
200 response with `Content-Type: text/plain`, `Content-Length: 3` and
body `abc`. -/
theorem claim_C8_theorem :
    (∀ (sc : Nat) (rs b : GoStr) (hs : List HttpHeader),
        writeResponse sc rs b hs
          = ("HTTP/1.1 ".data) ++ (toString sc).data ++ (" ".data) ++ rs ++ crlfG
            ++ headersBlock hs ++ crlfG ++ b ++ crlfG)
    ∧ ServeHTTP mainRouter fs0 (("GET /echo/abc HTTP/1.1\r\nHost: x\r\n\r\n").data)
        = some (("HTTP/1.1 200 OK\r\nContent-Type: text/plain\r\nContent-Length: 3\r\n\r\nabc\r\n").data) :=
  ⟨writeResponse_flat, by decide⟩

/-- Claim C9: the file-POST handler on a 3-segment path writes the
request body to the root directory joined with the file name and
returns `201 Created` unconditionally; a failing write leaves the store
untouched and is never surfaced in the response. -/
theorem claim_C9_theorem (fs : FileSys) (r : Request)
    (h3 : (split1 '/' r.path).length = 3) :
    (filesPostHandler fs r).1
        = Response.mk 201 ("Created".data) ("text/plain".data) ("saved".data)
    ∧ (fs.writeFails (dirPathOf fs ++ (split1 '/' r.path).getD 2 []) r.body = false →
        mapLookup ((filesPostHandler fs r).2).files
            (dirPathOf fs ++ (split1 '/' r.path).getD 2 []) = some r.body)
    ∧ (fs.writeFails (dirPathOf fs ++ (split1 '/' r.path).getD 2 []) r.body = true →
        (filesPostHandler fs r).2 = fs) := by
  have hpost : filesPostHandler fs r
      = (Response.mk 201 ("Created".data) ("text/plain".data) ("saved".data),
          (osWriteFile fs (dirPathOf fs ++ (split1 '/' r.path).getD 2 []) r.body).1) := by
    show (if (split1 '/' r.path).length = 3 then
        (Response.mk 201 ("Created".data) ("text/plain".data) ("saved".data),
          (osWriteFile fs (dirPathOf fs ++ (split1 '/' r.path).getD 2 []) r.body).1)
      else (Response.mk 404 ("Not Found".data) ("text/plain".data) ("Not Found".data), fs))
      = _
    rw [if_pos h3]
  rw [hpost]
  refine ⟨rfl, ?_, ?_⟩
  . intro hw
    rw [osWriteFile, if_neg (by rw [hw]; exact Bool.false_ne_true)]
    exact mapLookup_insert_self _ _ _
  . intro hw
    rw [osWriteFile, if_pos hw]

/-- Concrete witness for claim C9, with a filesystem that rejects every
write. -/
theorem claim_C9_witness :
    ((split1 '/' (("/files/foo").data)).length = 3)
    ∧ ((filesPostHandler (FileSys.mk [] (fun _ _ => true) [])
          (Request.mk (("/files/foo").data) [] (("data").data))).1
          = Response.mk 201 ("Created".data) ("text/plain".data) ("saved".data)
      ∧ ((FileSys.mk [] (fun _ _ => true) []).writeFails
            (dirPathOf (FileSys.mk [] (fun _ _ => true) [])
              ++ (split1 '/' (("/files/foo").data)).getD 2 []) (("data").data) = false →
          mapLookup ((filesPostHandler (FileSys.mk [] (fun _ _ => true) [])
              (Request.mk (("/files/foo").data) [] (("data").data))).2).files
            (dirPathOf (FileSys.mk [] (fun _ _ => true) [])
              ++ (split1 '/' (("/files/foo").data)).getD 2 []) = some (("data").data))
      ∧ ((FileSys.mk [] (fun _ _ => true) []).writeFails
            (dirPathOf (FileSys.mk [] (fun _ _ => true) [])
              ++ (split1 '/' (("/files/foo").data)).getD 2 []) (("data").data) = true →
          (filesPostHandler (FileSys.mk [] (fun _ _ => true) [])
              (Request.mk (("/files/foo").data) [] (("data").data))).2
            = FileSys.mk [] (fun _ _ => true) [])) :=
  ⟨by decide,
    claim_C9_theorem (FileSys.mk [] (fun _ _ => true) [])
      (Request.mk (("/files/foo").data) [] (("data").data)) (by decide)⟩

/-- Claim C10: every decoded GET request whose path's first segment is
empty (path `/`, or any path beginning with `//`) forms the route key
`GET/`, selects the root handler, and yields 200 with `text/html` body
`<h1>Hello World</h1>` rather than 404. -/
theorem claim_C10_theorem :
    (∀ (fs : FileSys) (request : GoStr),
        (lineFieldsOf request).getD 0 [] = ("GET").data →
        ¬(lineFieldsOf request).length < 2 →
        ¬(split1 '/' ((lineFieldsOf request).getD 1 [])).length < 2 →
        (split1 '/' ((lineFieldsOf request).getD 1 [])).getD 1 [] = [] →
        routeKey request = ("GET/").data
        ∧ mapLookup mainRouter (routeKey request) = some (pureHandler mainPageHandler)
        ∧ ∃ hs, serveResponseArgs mainRouter fs request
              = some (200, ("OK").data, ("<h1>Hello World</h1>").data, hs)
            ∧ HttpHeader.mk ("Content-Type".data) ("text/html".data) ∈ hs)
    ∧ ServeHTTP mainRouter fs0 (("GET / HTTP/1.1\r\n\r\n").data)
        = some (("HTTP/1.1 200 OK\r\nContent-Type: text/html\r\nContent-Length: 20\r\n\r\n<h1>Hello World</h1>\r\n").data)
    ∧ ServeHTTP mainRouter fs0 (("GET //anything/else HTTP/1.1\r\n\r\n").data)
        = some (("HTTP/1.1 200 OK\r\nContent-Type: text/html\r\nContent-Length: 20\r\n\r\n<h1>Hello World</h1>\r\n").data) := by
  refine ⟨?_, by decide, by decide⟩
  intro fs request hm h1 h2 hseg
  have hkey : routeKey request = ("GET/").data := by
    rw [routeKey, hm, hseg]
    decide
  have hlook : mapLookup mainRouter (routeKey request)
      = some (pureHandler mainPageHandler) := by
    rw [hkey]
    rfl
  refine ⟨hkey, hlook, ?_⟩
  have hargs : serveResponseArgs mainRouter fs request
      = some (200, ("OK").data, ("<h1>Hello World</h1>").data,
          handleCompression (requestOf request)
            [HttpHeader.mk ("Content-Type".data) ("text/html".data),
             HttpHeader.mk ("Content-Length".data) (("20").data)]) := by
    rw [serveResponseArgs, if_neg h1, if_neg h2, hlook]
    dsimp only [pureHandler, mainPageHandler]
    have h20 : (toString (List.length (("<h1>Hello World</h1>").data))).data
        = ("20").data := by
      decide
    rw [h20]
  exact ⟨_, hargs, handleCompression_mem _ _ _ (List.mem_cons_self _ _)⟩

/-- Concrete witness for claim C10. -/
theorem claim_C10_witness :
    ((lineFieldsOf (("GET //anything/else HTTP/1.1\r\n\r\n").data)).getD 0 []
        = ("GET").data)
    ∧ (¬(lineFieldsOf (("GET //anything/else HTTP/1.1\r\n\r\n").data)).length < 2)
    ∧ (¬(split1 '/'
          ((lineFieldsOf (("GET //anything/else HTTP/1.1\r\n\r\n").data)).getD 1 [])).length
          < 2)
    ∧ ((split1 '/'
          ((lineFieldsOf (("GET //anything/else HTTP/1.1\r\n\r\n").data)).getD 1 [])).getD 1 []
          = [])
    ∧ (routeKey (("GET //anything/else HTTP/1.1\r\n\r\n").data) = ("GET/").data
      ∧ mapLookup mainRouter (routeKey (("GET //anything/else HTTP/1.1\r\n\r\n").data))
          = some (pureHandler mainPageHandler)
      ∧ ∃ hs, serveResponseArgs mainRouter fs0 (("GET //anything/else HTTP/1.1\r\n\r\n").data)
            = some (200, ("OK").data, ("<h1>Hello World</h1>").data, hs)
          ∧ HttpHeader.mk ("Content-Type".data) ("text/html".data) ∈ hs) :=
  ⟨by decide, by decide, by decide, by decide,
    claim_C10_theorem.1 fs0 (("GET //anything/else HTTP/1.1\r\n\r\n").data)
      (by decide) (by decide) (by decide) (by decide)⟩

/-- Claim C1 counterexample: with `Accept-Encoding: gzip` the emitted
response carries a `Content-Encoding: gzip` header, yet the body on the
wire is the handler's body `abc` unchanged — its first byte is `a`
(0x61), not the gzip magic byte (0x1f), so the body was not replaced by
a gzip stream, and `Content-Length: 3` is the uncompressed length. -/
theorem claim_C1_counterexample :
    ServeHTTP mainRouter fs0
        (("GET /echo/abc HTTP/1.1\r\nAccept-Encoding: gzip\r\n\r\n").data)
      = some (("HTTP/1.1 200 OK\r\nContent-Type: text/plain\r\nContent-Length: 3\r\nContent-Encoding: gzip\r\n\r\nabc\r\n").data)
    ∧ serveResponseArgs mainRouter fs0
        (("GET /echo/abc HTTP/1.1\r\nAccept-Encoding: gzip\r\n\r\n").data)
      = some (200, ("OK").data, ("abc").data,
          [HttpHeader.mk ("Content-Type".data) ("text/plain".data),
           HttpHeader.mk ("Content-Length".data) (("3").data),
           HttpHeader.mk ("Content-Encoding".data) ("gzip".data)])
    ∧ (("abc").data.getD 0 ' ' ≠ gzipMagic) := by
  refine ⟨by decide, by decide, by decide⟩

/-- Claim C1 (amended): when the `accept-encoding` header value is
exactly `gzip`, the negotiator appends a `Content-Encoding: gzip`
response header; the response body never passes through the negotiator,
and every emitted header list still carries a `Content-Length` equal to
the length of the unmodified body being emitted. -/
theorem claim_C1_theorem :
    (∀ (r : Request) (h : List HttpHeader),
        mapLookup r.headers ("accept-encoding".data) = some ("gzip".data) →
        handleCompression r h
          = h ++ [HttpHeader.mk ("Content-Encoding".data) ("gzip".data)])
    ∧ (∀ (fs : FileSys) (request : GoStr) (sc : Nat) (rs b : GoStr)
          (hs : List HttpHeader),
        serveResponseArgs mainRouter fs request = some (sc, rs, b, hs) →
        HttpHeader.mk ("Content-Encoding".data) ("gzip".data) ∈ hs →
        HttpHeader.mk ("Content-Length".data) ((toString b.length).data) ∈ hs) := by
  constructor
  . intro r h hm
    rw [handleCompression_lookup r h _ hm, if_pos (by decide)]
  . intro fs request sc rs b hs h hce
    rcases serveResponseArgs_some mainRouter fs request sc rs b hs h with
      ⟨hsc, hrs, hb, hhs⟩ | ⟨handler, hlook, hsc, hrs, hb, hhs⟩
    . rw [hhs] at hce
      exact absurd hce (List.not_mem_nil _)
    . rw [hhs, hb]
      exact handleCompression_mem _ _ _
        (List.mem_cons.mpr (Or.inr (List.mem_cons_self _ _)))

/-- Concrete witness for claim C1 (amended form). -/
theorem claim_C1_witness :
    (mapLookup [((("accept-encoding").data), (("gzip").data))] ("accept-encoding".data)
        = some ("gzip".data))
    ∧ handleCompression
        (Request.mk (("/echo/abc").data) [((("accept-encoding").data), (("gzip").data))] [])
        []
      = [] ++ [HttpHeader.mk ("Content-Encoding".data) ("gzip".data)] :=
  ⟨by decide,
    claim_C1_theorem.1
      (Request.mk (("/echo/abc").data) [((("accept-encoding").data), (("gzip").data))] [])
      [] (by decide)⟩

/-- Claim C2 counterexample: the value `gzip, br` contains `gzip` among
its tokens under the claimed tokenization, yet the negotiator adds no
`Content-Encoding` header and the full response is the same as without
any `Accept-Encoding` header. -/
theorem claim_C2_counterexample :
    ((specEncodingTokens (("gzip, br").data)).contains (("gzip").data) = true)
    ∧ handleCompression
        (Request.mk (("/echo/abc").data)
          [((("accept-encoding").data), (("gzip, br").data))] [])
        [HttpHeader.mk ("Content-Type".data) ("text/plain".data)]
      = [HttpHeader.mk ("Content-Type".data) ("text/plain".data)]
    ∧ ServeHTTP mainRouter fs0
        (("GET /echo/abc HTTP/1.1\r\nAccept-Encoding: gzip, br\r\n\r\n").data)
      = some (("HTTP/1.1 200 OK\r\nContent-Type: text/plain\r\nContent-Length: 3\r\n\r\nabc\r\n").data) := by
  refine ⟨by decide, by decide, by decide⟩

/-- Claim C2 (amended): the negotiator treats gzip as requested exactly
when the whole `accept-encoding` value, lowercased, equals `gzip`;
any other present value (such as `gzip, br`) and an absent header leave
the response headers unmodified. -/
theorem claim_C2_theorem (r : Request) (h : List HttpHeader) :
    (∀ e, mapLookup r.headers ("accept-encoding".data) = some e →
        toLowerGo e = ("gzip".data) →
        handleCompression r h
          = h ++ [HttpHeader.mk ("Content-Encoding".data) ("gzip".data)])
    ∧ (∀ e, mapLookup r.headers ("accept-encoding".data) = some e →
        toLowerGo e ≠ ("gzip".data) → handleCompression r h = h)
    ∧ (mapLookup r.headers ("accept-encoding".data) = none →
        handleCompression r h = h) := by
  refine ⟨?_, ?_, ?_⟩
  . intro e hm he
    rw [handleCompression_lookup r h e hm, if_pos he]
  . intro e hm he
    rw [handleCompression_lookup r h e hm, if_neg he]
  . intro hm
    exact handleCompression_none r h hm

/-- Concrete witness for claim C2 (amended form). -/
theorem claim_C2_witness :
    (mapLookup [((("accept-encoding").data), (("gzip, br").data))] ("accept-encoding".data)
        = some (("gzip, br").data))
    ∧ (toLowerGo (("gzip, br").data) ≠ ("gzip".data))
    ∧ handleCompression
        (Request.mk (("/echo/abc").data)
          [((("accept-encoding").data), (("gzip, br").data))] [])
        [HttpHeader.mk ("Content-Type".data) ("text/plain".data)]
      = [HttpHeader.mk ("Content-Type".data) ("text/plain".data)] :=
  ⟨by decide, by decide,
    (claim_C2_theorem
        (Request.mk (("/echo/abc").data)
          [((("accept-encoding").data), (("gzip, br").data))] [])
        [HttpHeader.mk ("Content-Type".data) ("text/plain".data)]).2.1
      (("gzip, br").data) (by decide) (by decide)⟩
